import Mathlib

/-!
Verification development for an in-browser raster image editor
(canvas rendering and transform engine).

The engine state, layer model, filter compositor, coordinate mapper,
crop commit and export pipeline are shallowly embedded from the
TypeScript sources (src/canvas/engine/canvas-renderer.ts,
src/pages/Editor/CanvasStage.tsx, src/services/file.service.ts).
JavaScript numbers are modelled as exact rationals; decimal
literals of the source such as 0.3 are written as the exact rational
3/10 so that all definitions reduce in the kernel.
-/

namespace ImageEditor

/-- 2D vector of rational coordinates (JS object { x, y }). -/
structure Vec2 where
  x : ℚ
  y : ℚ
deriving DecidableEq

/-- Width/height pair (JS object { w, h }). -/
structure Size where
  w : ℚ
  h : ℚ
deriving DecidableEq

/-- Raster content of a layer.  A bitmap has integer pixel dimensions and a
total colour function on integer pixel coordinates (the colour value itself
is abstracted as a natural number). -/
structure Bitmap where
  width : ℕ
  height : ℕ
  pix : ℤ → ℤ → ℕ

/-- Filter state record (canvas-renderer.ts, FilterState). -/
structure FilterState where
  brightness : ℚ
  contrast : ℚ
  saturation : ℚ
  hue : ℚ
  blur : ℚ
  sharpen : ℚ
  highlights : ℚ
  shadows : ℚ
  temperature : ℚ
  exposure : ℚ
  clarity : ℚ
  fade : ℚ
deriving DecidableEq

/-- A layer (canvas-renderer.ts, Layer).  The blend mode is kept as the raw
CSS compositing-operation string. -/
structure Layer where
  id : String
  name : String
  bitmap : Bitmap
  offset : Vec2
  visible : Bool
  scale : ℚ
  rotation : ℚ
  opacity : ℚ
  blendMode : String
  locked : Bool

/-- Crop rectangle in image space (canvas-renderer.ts, CropRect). -/
structure CropRect where
  x : ℚ
  y : ℚ
  w : ℚ
  h : ℚ
  rotation : ℚ
deriving DecidableEq

/-- The renderer's mutable state (canvas-renderer.ts, createRenderer). -/
structure EngineState where
  layers : List Layer
  zoom : ℚ
  offset : Vec2
  view : Size
  imgSize : Size
  filter : FilterState

/-- clamp helper (canvas-renderer.ts line 57):
Math.min(Math.max(v, min), max). -/
def clamp (v lo hi : ℚ) : ℚ := min (max v lo) hi

/-- The initial (neutral) filter state of a fresh renderer
(canvas-renderer.ts line 68). -/
def neutralFilter : FilterState :=
  { brightness := 100, contrast := 100, saturation := 100, hue := 0
    blur := 0, sharpen := 0, highlights := 100, shadows := 100
    temperature := 0, exposure := 0, clarity := 0, fade := 0 }

/-- The initial renderer state (canvas-renderer.ts lines 62-69). -/
def initialState : EngineState :=
  { layers := [], zoom := 1, offset := ⟨0, 0⟩, view := ⟨0, 0⟩
    imgSize := ⟨0, 0⟩, filter := neutralFilter }

/-! ### Filter compositor

The render function (canvas-renderer.ts lines 291-332) builds an ordered
chain of primitive CSS filter operations from the filter state.  The chain
construction is pure; it is factored out here as buildFilterChain, with the
intermediate quantities as named definitions. -/

/-- A primitive operation of the CSS filter chain. -/
inductive FilterOp where
  | brightness (pct : ℚ)
  | sepia (pct : ℚ)
  | saturate (pct : ℚ)
  | hueRotate (deg : ℚ)
  | contrast (pct : ℚ)
  | blur (px : ℚ)
deriving DecidableEq, Repr

/-- Effective brightness (canvas-renderer.ts lines 299-309): brightness plus
highlight/shadow/exposure offsets plus the fade brightness boost. -/
def effectiveBrightness (f : FilterState) : ℚ :=
  let fadeStrength := max 0 (min 100 f.fade)
  let fadeBrightnessBoost := fadeStrength * (2/10)
  let hlOffset := (f.highlights - 100) * (3/10)
  let shOffset := (f.shadows - 100) * (2/10)
  let expOffset := f.exposure * (8/10)
  f.brightness + hlOffset + shOffset + expOffset + fadeBrightnessBoost

/-- Clamped temperature t (canvas-renderer.ts line 314). -/
def temperatureT (f : FilterState) : ℚ := max (-100) (min 100 f.temperature)

/-- Sepia percentage of the temperature triad (canvas-renderer.ts line 316). -/
def temperatureSepia (f : FilterState) : ℚ :=
  let t := temperatureT f
  if t > 0 then |t| * (6/10) else |t| * (25/100)

/-- Saturate percentage of the temperature triad (canvas-renderer.ts line 317). -/
def temperatureSaturate (f : FilterState) : ℚ := 100 + temperatureT f * (3/10)

/-- Hue-rotate angle of the temperature triad (canvas-renderer.ts line 318). -/
def temperatureHue (f : FilterState) : ℚ := temperatureT f * (-(4/10))

/-- Effective contrast (canvas-renderer.ts lines 324-327): contrast plus the
clarity boost minus the fade drop, plus a sharpen-driven boost. -/
def effectiveContrast (f : FilterState) : ℚ :=
  let clarityContrastBoost := f.clarity * (3/10)
  let fadeStrength := max 0 (min 100 f.fade)
  let fadeContrastDrop := fadeStrength * (6/10)
  let contrastBase := f.contrast + clarityContrastBoost - fadeContrastDrop
  if f.sharpen > 0 then contrastBase + (f.sharpen / 100) * 20 else contrastBase

/-- Effective saturation (canvas-renderer.ts line 329). -/
def effectiveSaturation (f : FilterState) : ℚ :=
  let claritySaturationBoost := f.clarity * (1/10)
  let fadeStrength := max 0 (min 100 f.fade)
  let fadeSaturationDrop := fadeStrength * (2/10)
  f.saturation + claritySaturationBoost - fadeSaturationDrop

/-- The sepia/saturate/hue-rotate triad emitted for a non-neutral
temperature (canvas-renderer.ts lines 313-322). -/
def temperatureTriad (f : FilterState) : List FilterOp :=
  (if temperatureSepia f ≠ 0 then [FilterOp.sepia (temperatureSepia f)] else []) ++
  (if temperatureSaturate f ≠ 100 then [FilterOp.saturate (temperatureSaturate f)] else []) ++
  (if temperatureHue f ≠ 0 then [FilterOp.hueRotate (temperatureHue f)] else [])

/-- The ordered filter chain built by the live renderer
(canvas-renderer.ts lines 291-332).  Sequential pushes onto the JS array
are translated into list concatenation in push order. -/
def buildFilterChain (f : FilterState) : List FilterOp :=
  (if effectiveBrightness f ≠ 100 then [FilterOp.brightness (effectiveBrightness f)] else []) ++
  (if f.temperature ≠ 0 then temperatureTriad f else []) ++
  (if effectiveContrast f ≠ 100 then [FilterOp.contrast (effectiveContrast f)] else []) ++
  (if effectiveSaturation f ≠ 100 then [FilterOp.saturate (effectiveSaturation f)] else []) ++
  (if f.hue ≠ 0 then [FilterOp.hueRotate f.hue] else []) ++
  (if f.blur > 0 then [FilterOp.blur f.blur] else [])

/-- Whether a filter operation is a brightness operation. -/
def FilterOp.isBrightness : FilterOp → Bool
  | .brightness _ => true
  | _ => false

/-! ### View operations (canvas-renderer.ts) -/

/-- recomputeSize (canvas-renderer.ts lines 94-102): imgSize is the maximum
width/height over all layers' native bitmap dimensions, or (0, 0) with no
layers.  For a nonempty list of natural-number dimensions, folding max from 0
agrees with the JS spread Math.max. -/
def computeImgSize (layers : List Layer) : Size :=
  if layers.isEmpty then ⟨0, 0⟩
  else ⟨(layers.map fun l => (l.bitmap.width : ℚ)).foldr max 0,
        (layers.map fun l => (l.bitmap.height : ℚ)).foldr max 0⟩

/-- setSize (canvas-renderer.ts lines 77-92); only the view-size field of the
engine state is affected (the rest of the function resizes the DOM canvases
and re-renders). -/
def setSize (width height : ℚ) (st : EngineState) : EngineState :=
  { st with view := ⟨width, height⟩ }

/-- Ceiling square root on naturals, Math.ceil(Math.sqrt n). -/
def ceilSqrt (n : ℕ) : ℕ :=
  if Nat.sqrt n * Nat.sqrt n = n then Nat.sqrt n else Nat.sqrt n + 1

/-- addImage (canvas-renderer.ts lines 114-149).  The decoded bitmap and the
generated unique id are produced by the browser and are passed here as
arguments; name resolution (name || file.name || fallback) happens at the
call boundary.  When no offset is given and layers already exist, the new
layer is staggered on a grid. -/
def addImage (newId name : String) (bitmap : Bitmap) (offset : Option Vec2)
    (st : EngineState) : EngineState :=
  let layerOffset : Vec2 :=
    match offset with
    | some o => o
    | none =>
      if st.layers.length > 0 then
        let layerIndex := st.layers.length
        let spacing : ℚ := 50
        let gridSize := ceilSqrt (layerIndex + 1)
        let row := layerIndex / gridSize
        let col := layerIndex % gridSize
        ⟨((col : ℚ) - ((gridSize : ℚ) - 1) / 2) * spacing,
         ((row : ℚ) - ((gridSize : ℚ) - 1) / 2) * spacing⟩
      else ⟨0, 0⟩
  let layer : Layer :=
    { id := newId, name := name, bitmap := bitmap, offset := layerOffset
      visible := true, scale := 1, rotation := 0, opacity := 1
      blendMode := "source-over", locked := false }
  let newLayers := st.layers ++ [layer]
  { st with layers := newLayers, imgSize := computeImgSize newLayers }

/-- fitToView (canvas-renderer.ts lines 104-112).  JS computes
min(vw/iw, vh/ih) * (9/10) and falls back to 1 when that value is falsy
(scale || 1); over the rationals the only falsy value is 0.  States with
imgSize 0 (where the JS division produces Infinity) are outside the region
any theorem below touches. -/
def fitToView (st : EngineState) : EngineState :=
  if st.layers.isEmpty then st
  else
    let scale := min (st.view.w / st.imgSize.w) (st.view.h / st.imgSize.h) * (9/10)
    { st with zoom := if scale = 0 then 1 else scale, offset := ⟨0, 0⟩ }

/-- zoomTo (canvas-renderer.ts lines 157-171). -/
def zoomTo (newZoom : ℚ) (pointer : Option Vec2) (st : EngineState) : EngineState :=
  let nz := clamp newZoom (1/10) 8
  let center : Vec2 := ⟨st.view.w / 2, st.view.h / 2⟩
  let st1 :=
    match pointer with
    | some p =>
      if st.layers.isEmpty then st
      else
        let delta : Vec2 := ⟨p.x - center.x - st.offset.x, p.y - center.y - st.offset.y⟩
        { st with offset := ⟨st.offset.x + delta.x * (1 - nz / st.zoom),
                             st.offset.y + delta.y * (1 - nz / st.zoom)⟩ }
    | none => st
  { st1 with zoom := nz }

/-- zoomBy (canvas-renderer.ts lines 173-176). -/
def zoomBy (delta : ℚ) (pointer : Option Vec2) (st : EngineState) : EngineState :=
  zoomTo (st.zoom * (1 - delta * (1/1000))) pointer st

/-- pan (canvas-renderer.ts lines 178-182). -/
def pan (dx dy : ℚ) (st : EngineState) : EngineState :=
  { st with offset := ⟨st.offset.x + dx, st.offset.y + dy⟩ }

/-- Argument record of setView. -/
structure ViewTarget where
  zoom : ℚ
  offset : Vec2
deriving DecidableEq

/-- setView (canvas-renderer.ts lines 550-554). -/
def setView (next : ViewTarget) (st : EngineState) : EngineState :=
  { st with zoom := clamp next.zoom (1/10) 8, offset := next.offset }

/-! ### Layer operations (canvas-renderer.ts)

The JS mutators locate their target with Array.prototype.find /
findIndex (first layer whose id matches) and mutate that element in
place; this is modelled as findIdx followed by List.set. -/

/-- Index of the first layer with the given id; equals layers.length when no
layer matches (so that indexing with getElem? yields none, matching the
undefined result of Array.prototype.find). -/
def findLayerIdx (st : EngineState) (id : String) : ℕ :=
  st.layers.findIdx fun l => l.id == id

/-- The first layer with the given id, if any. -/
def findLayer (st : EngineState) (id : String) : Option Layer :=
  st.layers[findLayerIdx st id]?

/-- setLayerVisibility (canvas-renderer.ts lines 402-407); no locked check. -/
def setLayerVisibility (id : String) (visible : Bool) (st : EngineState) : EngineState :=
  match findLayer st id with
  | none => st
  | some layer =>
    { st with layers := st.layers.set (findLayerIdx st id) { layer with visible := visible } }

/-- Direction argument of moveLayer. -/
inductive MoveDir where
  | up
  | down
deriving DecidableEq

/-- moveLayer (canvas-renderer.ts lines 409-417): swap the layer with its
neighbour above (up) or below (down); locked layers are not moved. -/
def moveLayer (id : String) (direction : MoveDir) (st : EngineState) : EngineState :=
  match findLayer st id with
  | none => st
  | some layer =>
    if layer.locked then st
    else
      let idx := findLayerIdx st id
      let target : ℤ := if direction = .up then (idx : ℤ) + 1 else (idx : ℤ) - 1
      if target < 0 ∨ target ≥ (st.layers.length : ℤ) then st
      else
        match st.layers[target.toNat]? with
        | none => st
        | some other =>
          { st with layers := (st.layers.set idx other).set target.toNat layer }

/-- moveLayerOffset (canvas-renderer.ts lines 419-425). -/
def moveLayerOffset (id : String) (dx dy : ℚ) (st : EngineState) : EngineState :=
  match findLayer st id with
  | none => st
  | some layer =>
    if layer.locked then st
    else
      let newLayers := st.layers.set (findLayerIdx st id)
        { layer with offset := ⟨layer.offset.x + dx, layer.offset.y + dy⟩ }
      { st with layers := newLayers }

/-- setLayerOffset (canvas-renderer.ts lines 427-432). -/
def setLayerOffset (id : String) (offset : Vec2) (st : EngineState) : EngineState :=
  match findLayer st id with
  | none => st
  | some layer =>
    if layer.locked then st
    else
      { st with layers := st.layers.set (findLayerIdx st id) { layer with offset := offset } }

/-- setLayerScale (canvas-renderer.ts lines 434-439): scale is clamped to
[0.1, 5]. -/
def setLayerScale (id : String) (scale : ℚ) (st : EngineState) : EngineState :=
  match findLayer st id with
  | none => st
  | some layer =>
    if layer.locked then st
    else
      let newLayers := st.layers.set (findLayerIdx st id) { layer with scale := clamp scale (1/10) 5 }
      { st with layers := newLayers }

/-- Truncation toward zero, as used by the JS % operator. -/
def ratTrunc (q : ℚ) : ℤ := if 0 ≤ q then ⌊q⌋ else ⌈q⌉

/-- The JS remainder operator a % b for finite operands and b different
from 0: the remainder takes the sign of the dividend. -/
def jsMod (a b : ℚ) : ℚ := a - b * ratTrunc (a / b)

/-- setLayerRotation (canvas-renderer.ts lines 441-446): the rotation is
stored as rotation % 360 with JS remainder semantics. -/
def setLayerRotation (id : String) (rotation : ℚ) (st : EngineState) : EngineState :=
  match findLayer st id with
  | none => st
  | some layer =>
    if layer.locked then st
    else
      let newLayers := st.layers.set (findLayerIdx st id) { layer with rotation := jsMod rotation 360 }
      { st with layers := newLayers }

/-- setLayerOpacity (canvas-renderer.ts lines 448-453). -/
def setLayerOpacity (id : String) (opacity : ℚ) (st : EngineState) : EngineState :=
  match findLayer st id with
  | none => st
  | some layer =>
    if layer.locked then st
    else
      let newLayers := st.layers.set (findLayerIdx st id) { layer with opacity := clamp opacity 0 1 }
      { st with layers := newLayers }

/-- setLayerBlendMode (canvas-renderer.ts lines 455-460). -/
def setLayerBlendMode (id : String) (blendMode : String) (st : EngineState) : EngineState :=
  match findLayer st id with
  | none => st
  | some layer =>
    if layer.locked then st
    else
      let newLayers := st.layers.set (findLayerIdx st id) { layer with blendMode := blendMode }
      { st with layers := newLayers }

/-- setLayerLocked (canvas-renderer.ts lines 462-467); no locked check, so a
locked layer can be unlocked. -/
def setLayerLocked (id : String) (locked : Bool) (st : EngineState) : EngineState :=
  match findLayer st id with
  | none => st
  | some layer =>
    { st with layers := st.layers.set (findLayerIdx st id) { layer with locked := locked } }

/-- deleteLayer (canvas-renderer.ts lines 504-513). -/
def deleteLayer (id : String) (st : EngineState) : EngineState :=
  match findLayer st id with
  | none => st
  | some layer =>
    if layer.locked then st
    else
      let newLayers := st.layers.eraseIdx (findLayerIdx st id)
      { st with layers := newLayers, imgSize := computeImgSize newLayers }

/-- duplicateLayer (canvas-renderer.ts lines 515-541).  The duplicate gets a
fresh browser-generated id (passed as an argument) and a bitmap copy with
identical dimensions and pixel content; it is appended on top, unlocked. -/
def duplicateLayer (newId : String) (id : String) (st : EngineState) : EngineState :=
  match findLayer st id with
  | none => st
  | some layer =>
    if layer.locked then st
    else
      let newLayer : Layer :=
        { id := newId, name := layer.name ++ " 副本", bitmap := layer.bitmap
          offset := layer.offset, visible := layer.visible, scale := layer.scale
          rotation := layer.rotation, opacity := layer.opacity
          blendMode := layer.blendMode, locked := false }
      let newLayers := st.layers ++ [newLayer]
      { st with layers := newLayers, imgSize := computeImgSize newLayers }

/-- renameLayer (canvas-renderer.ts lines 543-548).  Note: unlike the other
layer mutators, the source checks only that the layer exists; there is no
locked check. -/
def renameLayer (id : String) (newName : String) (st : EngineState) : EngineState :=
  match findLayer st id with
  | none => st
  | some layer =>
    { st with layers := st.layers.set (findLayerIdx st id) { layer with name := newName } }

/-! ### Crop commit (canvas-renderer.ts, applyCrop)

The commit step redraws the target layer through an offscreen canvas.  The
offscreen drawImage call is a browser primitive; it is modelled here by
point sampling at destination pixel centres for the axis-aligned case (both
the crop rectangle rotation and the layer rotation equal to 0), which is
the only case the claims below exercise.  The surrounding arithmetic
(offscreen canvas dimensions, the crop rectangle expressed in layer-local
coordinates, and all state updates) is embedded exactly. -/

/-- Model of the browser canvas drawImage primitive
drawImage(src, sx, sy, sw, sh, -dw/2, -dh/2, dw, dh) under a pure
translation to the canvas centre, i.e. an axis-aligned draw covering the
whole dw-by-dh destination canvas: destination pixel (i, j) is point
sampled at its centre, mapped linearly into the source rectangle. -/
def sampleAxisAligned (src : Bitmap) (sx sy sw sh : ℚ) (dw dh : ℕ) : ℤ → ℤ → ℕ :=
  fun i j =>
    src.pix ⌊sx + ((i : ℚ) + 1/2) * sw / (dw : ℚ)⌋ ⌊sy + ((j : ℚ) + 1/2) * sh / (dh : ℚ)⌋

/-- The bitmap produced by the crop commit for a given target layer
(canvas-renderer.ts lines 191-256).  The offscreen canvas measures
max(1, floor(rect.w)) by max(1, floor(rect.h)).  The crop rectangle is
translated from image space into layer-local bitmap coordinates, undoing
the layer offset, rotation and scale.  Pixel content is modelled for the
axis-aligned case (both rotations 0, where cos = 1 and sin = 0 exactly);
outside that case the two canvas rotations are transcendental and the
resulting content is left unmodelled (constant 0). -/
def cropBitmap (target : Layer) (rect : CropRect) : Bitmap :=
  let offW : ℕ := (max 1 ⌊rect.w⌋).toNat
  let offH : ℕ := (max 1 ⌊rect.h⌋).toNat
  let layerCenterX := target.offset.x + (target.bitmap.width : ℚ) / 2
  let layerCenterY := target.offset.y + (target.bitmap.height : ℚ) / 2
  let cropCenterX := rect.x + rect.w / 2
  let cropCenterY := rect.y + rect.h / 2
  let dx := cropCenterX - layerCenterX
  let dy := cropCenterY - layerCenterY
  { width := offW
    height := offH
    pix :=
      if target.rotation = 0 ∧ rect.rotation = 0 then
        -- cos(-0 · π/180) = 1 and sin(-0 · π/180) = 0, so the rotated local
        -- offset (localDx, localDy) reduces to (dx, dy), and both ctx.rotate
        -- calls are identities.
        let localDx := dx * 1 - dy * 0
        let localDy := dx * 0 + dy * 1
        let cropLocalX :=
          (target.bitmap.width : ℚ) / 2 + localDx / target.scale - rect.w / 2 / target.scale
        let cropLocalY :=
          (target.bitmap.height : ℚ) / 2 + localDy / target.scale - rect.h / 2 / target.scale
        let cropLocalW := rect.w / target.scale
        let cropLocalH := rect.h / target.scale
        sampleAxisAligned target.bitmap cropLocalX cropLocalY cropLocalW cropLocalH offW offH
      else fun _ _ => 0 }

/-- applyCrop (canvas-renderer.ts lines 184-267).  ctxOk models whether the
offscreen drawing-surface context is available (off.getContext may return
null).  With no layers, a missing target, a locked target or an unavailable
context the state is returned unchanged; otherwise the target layer gets
the cropped bitmap with its transform reset, imgSize is recomputed, and the
document pan/zoom reset to the defaults.  The target index: the first layer
with the requested id, or the last (topmost) layer when no id is given
(canvas-renderer.ts lines 186-188); findIdx returns the list length when
nothing matches, making the lookup miss like Array.prototype.find. -/
def cropTargetIdx (targetLayerId : Option String) (st : EngineState) : ℕ :=
  match targetLayerId with
  | some tid => st.layers.findIdx fun l => l.id == tid
  | none => st.layers.length - 1

def applyCrop (ctxOk : Bool) (rect : CropRect) (targetLayerId : Option String)
    (st : EngineState) : EngineState :=
  if st.layers.isEmpty then st
  else
    match st.layers[cropTargetIdx targetLayerId st]? with
    | none => st
    | some target =>
      if target.locked then st
      else if !ctxOk then st
      else
        let newTarget : Layer :=
          { target with bitmap := cropBitmap target rect
                        offset := ⟨0, 0⟩, scale := 1, rotation := 0 }
        let newLayers := st.layers.set (cropTargetIdx targetLayerId st) newTarget
        { st with layers := newLayers, imgSize := computeImgSize newLayers
                  offset := ⟨0, 0⟩, zoom := 1 }

/-! ### Coordinate mapper (src/pages/Editor/CanvasStage.tsx)

getTransforms snapshots the renderer state; imageToView and viewToImage
convert between image-space and view-space points under that snapshot. -/

/-- The (zoom, pan, viewport) snapshot built by getTransforms
(CanvasStage.tsx lines 185-198). -/
structure Transforms where
  vw : ℚ
  vh : ℚ
  iw : ℚ
  ih : ℚ
  zoom : ℚ
  originX : ℚ
  originY : ℚ
deriving DecidableEq

/-- getTransforms (CanvasStage.tsx lines 185-198): null when the renderer
has no layers, otherwise the snapshot with the draw origin
(centre plus pan offset minus half the drawn size). -/
def getTransforms (st : EngineState) : Option Transforms :=
  if st.layers.isEmpty then none
  else
    let drawW := st.imgSize.w * st.zoom
    let drawH := st.imgSize.h * st.zoom
    let cx := st.view.w / 2 + st.offset.x
    let cy := st.view.h / 2 + st.offset.y
    some { vw := st.view.w, vh := st.view.h, iw := st.imgSize.w, ih := st.imgSize.h
           zoom := st.zoom, originX := cx - drawW / 2, originY := cy - drawH / 2 }

/-- imageToView (CanvasStage.tsx lines 200-204) on a snapshot. -/
def imageToView (t : Transforms) (pt : Vec2) : Vec2 :=
  ⟨t.originX + pt.x * t.zoom, t.originY + pt.y * t.zoom⟩

/-- viewToImage (CanvasStage.tsx lines 206-210) on a snapshot. -/
def viewToImage (t : Transforms) (pt : Vec2) : Vec2 :=
  ⟨(pt.x - t.originX) / t.zoom, (pt.y - t.originY) / t.zoom⟩

/-! ### Export pipeline (src/services/file.service.ts, exportImage)

The export computes the union bounding box of the visible layers'
rotated/scaled rectangles, sizes an offscreen canvas to that box plus a
10-pixel padding on each side, and builds its own (reduced) filter chain.
The per-layer corner rotation involves transcendental trigonometry; the
embedding covers the fragment in which every visible layer has rotation 0
(cos = 1, sin = 0 exactly), which is all the claims below exercise, and
reports any other input as outside the modelled fragment. -/

/-- Size and filter set-up of the export canvas: everything exportImage
decides before the browser rasterizes and encodes. -/
structure ExportSetup where
  canvasW : ℤ
  canvasH : ℤ
  offsetX : ℚ
  offsetY : ℚ
  chain : List FilterOp
deriving DecidableEq

/-- The filter chain built by exportImage (file.service.ts lines 99-110).
Unlike the live renderer it uses the raw brightness, contrast and
saturation values: highlights, shadows, temperature, exposure, clarity and
fade do not enter. -/
def exportFilterChain (f : FilterState) : List FilterOp :=
  let l1 : List FilterOp := if f.brightness ≠ 100 then [.brightness f.brightness] else []
  let effC := if f.sharpen > 0 then f.contrast + (f.sharpen / 100) * 20 else f.contrast
  let l2 : List FilterOp := if effC ≠ 100 then [.contrast effC] else []
  let l3 : List FilterOp := if f.saturation ≠ 100 then [.saturate f.saturation] else []
  let l4 : List FilterOp := if f.hue ≠ 0 then [.hueRotate f.hue] else []
  let l5 : List FilterOp := if f.blur > 0 then [.blur f.blur] else []
  l1 ++ l2 ++ l3 ++ l4 ++ l5

/-- The four rotated corner points of a layer's scaled rectangle
(file.service.ts lines 34-68), for a layer with rotation 0
(cos = 1, sin = 0). -/
def exportCornersZeroRot (l : Layer) : List Vec2 :=
  let scaledW := (l.bitmap.width : ℚ) * l.scale
  let scaledH := (l.bitmap.height : ℚ) * l.scale
  let centerX := l.offset.x + (l.bitmap.width : ℚ) / 2
  let centerY := l.offset.y + (l.bitmap.height : ℚ) / 2
  let halfW := scaledW / 2
  let halfH := scaledH / 2
  let corners : List Vec2 := [⟨-halfW, -halfH⟩, ⟨halfW, -halfH⟩, ⟨halfW, halfH⟩, ⟨-halfW, halfH⟩]
  corners.map fun c => ⟨c.x * 1 - c.y * 0 + centerX, c.x * 0 + c.y * 1 + centerY⟩

/-- exportImage up to rasterization (file.service.ts lines 15-110): layer
check, visible-corner bounding box (the running min/max over corners,
started at Infinity, is the fold over the nonempty corner list), padding,
canvas dimensions (Math.ceil) and the export filter chain.  Errors carry
the thrown messages.  Inputs with a rotated visible layer are outside the
modelled fragment. -/
def exportSetup (ctxOk : Bool) (st : EngineState) : Except String ExportSetup :=
  if st.layers.isEmpty then .error "没有可导出的图像"
  else if !(st.layers.all fun l => !l.visible || l.rotation == 0) then
    .error "unmodelled: rotated visible layer"
  else
    match (st.layers.filter fun l => l.visible).flatMap exportCornersZeroRot with
    | [] => .error "没有可导出的可见图层"
    | p :: rest =>
      let minX := rest.foldl (fun acc q => min acc q.x) p.x
      let minY := rest.foldl (fun acc q => min acc q.y) p.y
      let maxX := rest.foldl (fun acc q => max acc q.x) p.x
      let maxY := rest.foldl (fun acc q => max acc q.y) p.y
      if !ctxOk then .error "无法创建Canvas上下文"
      else
        let padding : ℚ := 10
        .ok { canvasW := ⌈maxX - minX + padding * 2⌉
              canvasH := ⌈maxY - minY + padding * 2⌉
              offsetX := minX - padding
              offsetY := minY - padding
              chain := exportFilterChain st.filter }

/-! ### Test fixtures

Concrete states used by witnesses and counterexamples. -/

/-- A pixel function with distinct values at distinct coordinates. -/
def testPix : ℤ → ℤ → ℕ := fun i j => (i + 1000 * j).toNat

/-- A 200-by-100 single layer at the origin with identity transform. -/
def baseLayer (pix : ℤ → ℤ → ℕ) : Layer :=
  { id := "L1", name := "layer", bitmap := ⟨200, 100, pix⟩, offset := ⟨0, 0⟩
    visible := true, scale := 1, rotation := 0, opacity := 1
    blendMode := "source-over", locked := false }

/-- Document with the single 200-by-100 layer, zoom 1, pan (0, 0). -/
def oneLayerState (pix : ℤ → ℤ → ℕ) : EngineState :=
  { layers := [baseLayer pix], zoom := 1, offset := ⟨0, 0⟩, view := ⟨800, 600⟩
    imgSize := ⟨200, 100⟩, filter := neutralFilter }

/-- The state of oneLayerState with the concrete test pixels. -/
def stdState : EngineState := oneLayerState testPix

/-- The single layer of stdState, locked. -/
def lockedLayer : Layer := { baseLayer testPix with locked := true }

/-- stdState with its only layer locked. -/
def lockedState : EngineState := { stdState with layers := [lockedLayer] }

/-! ### Helper lemmas -/

/-- A conditionally emitted singleton is a sublist of the singleton. -/
theorem ite_singleton_sublist (c : Prop) [Decidable c] (x : FilterOp) :
    List.Sublist (if c then [x] else []) [x] := by
  split
  · exact List.Sublist.refl _
  · exact List.nil_sublist _

/-- Math.max(0, Math.min(100, x)) agrees with clamp(x, 0, 100). -/
theorem max_min_eq_clamp (x : ℚ) : max 0 (min 100 x) = clamp x 0 100 := by
  unfold clamp
  rcases le_total x 0 with h | h <;> rcases le_total x 100 with h2 | h2 <;>
    simp [min_def, max_def] <;> split_ifs <;> linarith

/-- The clamp helper lands in the clamping interval. -/
theorem clamp_mem (v lo hi : ℚ) (h : lo ≤ hi) :
    lo ≤ clamp v lo hi ∧ clamp v lo hi ≤ hi :=
  ⟨le_min (le_max_right _ _) h, min_le_right _ _⟩

/-! ### Claims -/

/-- C6: when every filter field is at its neutral value (brightness=100,
contrast=100, saturation=100, hue=0, blur=0, sharpen=0, highlights=100,
shadows=100, temperature=0, exposure=0, clarity=0, fade=0), the filter
chain built by the renderer is the empty operation list. -/
theorem neutral_filterChain_empty :
    buildFilterChain
      { brightness := 100, contrast := 100, saturation := 100, hue := 0
        blur := 0, sharpen := 0, highlights := 100, shadows := 100
        temperature := 0, exposure := 0, clarity := 0, fade := 0 } = [] := by
  norm_num [buildFilterChain, temperatureTriad, effectiveBrightness, effectiveContrast,
    effectiveSaturation, temperatureT, temperatureSepia, temperatureSaturate, temperatureHue,
    min_def, max_def]

/-- C2: for every filter state, the chain built by the renderer emits a
brightness operation exactly when brightness + (highlights-100)*0.3 +
(shadows-100)*0.2 + exposure*0.8 + clamp(fade,0,100)*0.2 differs from 100,
with that sum as its magnitude, and the whole chain is a sublist of the
template brightness, temperature triad (sepia, saturate, hue-rotate),
contrast, saturation, hue, blur — i.e. the emitted operations appear in
exactly that order. -/
theorem filterChain_brightness_and_order (f : FilterState) :
    ((buildFilterChain f).filter FilterOp.isBrightness =
      (if f.brightness + (f.highlights - 100) * (3/10) + (f.shadows - 100) * (2/10) +
          f.exposure * (8/10) + clamp f.fade 0 100 * (2/10) ≠ 100 then
        [FilterOp.brightness
          (f.brightness + (f.highlights - 100) * (3/10) + (f.shadows - 100) * (2/10) +
            f.exposure * (8/10) + clamp f.fade 0 100 * (2/10))]
      else [])) ∧
    List.Sublist (buildFilterChain f)
      [FilterOp.brightness (effectiveBrightness f), FilterOp.sepia (temperatureSepia f),
       FilterOp.saturate (temperatureSaturate f), FilterOp.hueRotate (temperatureHue f),
       FilterOp.contrast (effectiveContrast f), FilterOp.saturate (effectiveSaturation f),
       FilterOp.hueRotate f.hue, FilterOp.blur f.blur] := by
  have hb : effectiveBrightness f =
      f.brightness + (f.highlights - 100) * (3/10) + (f.shadows - 100) * (2/10) +
        f.exposure * (8/10) + clamp f.fade 0 100 * (2/10) := by
    unfold effectiveBrightness
    rw [max_min_eq_clamp]
  have hone : ∀ (c : Prop) [Decidable c] (x : FilterOp), x.isBrightness = false →
      (if c then [x] else []).filter FilterOp.isBrightness = [] := by
    intro c _ x hx
    split <;> simp [hx]
  constructor
  · rw [← hb]
    have htriad : (if f.temperature ≠ 0 then temperatureTriad f else []).filter
        FilterOp.isBrightness = [] := by
      split
      · unfold temperatureTriad
        simp only [List.filter_append, List.append_eq_nil]
        exact ⟨⟨hone _ (FilterOp.sepia (temperatureSepia f)) rfl,
          hone _ (FilterOp.saturate (temperatureSaturate f)) rfl⟩,
          hone _ (FilterOp.hueRotate (temperatureHue f)) rfl⟩
      · rfl
    unfold buildFilterChain
    simp only [List.filter_append, htriad, hone _ (FilterOp.contrast (effectiveContrast f)) rfl,
      hone _ (FilterOp.saturate (effectiveSaturation f)) rfl,
      hone _ (FilterOp.hueRotate f.hue) rfl, hone _ (FilterOp.blur f.blur) rfl]
    have hbr : (if effectiveBrightness f ≠ 100 then
        [FilterOp.brightness (effectiveBrightness f)] else []).filter
        FilterOp.isBrightness = (if effectiveBrightness f ≠ 100 then
        [FilterOp.brightness (effectiveBrightness f)] else []) := by
      split <;> simp [FilterOp.isBrightness]
    rw [hbr]
    simp
  · have h2 : List.Sublist (if f.temperature ≠ 0 then temperatureTriad f else [])
        [FilterOp.sepia (temperatureSepia f), FilterOp.saturate (temperatureSaturate f),
         FilterOp.hueRotate (temperatureHue f)] := by
      split
      · unfold temperatureTriad
        exact List.Sublist.append
          (List.Sublist.append (ite_singleton_sublist _ _) (ite_singleton_sublist _ _))
          (ite_singleton_sublist _ _)
      · exact List.nil_sublist _
    unfold buildFilterChain
    exact List.Sublist.append (List.Sublist.append (List.Sublist.append (List.Sublist.append
      (List.Sublist.append (ite_singleton_sublist _ _) h2) (ite_singleton_sublist _ _))
      (ite_singleton_sublist _ _)) (ite_singleton_sublist _ _)) (ite_singleton_sublist _ _)

/-- C3: under one (zoom, pan, viewport) snapshot taken with at least one
layer present and zoom within the clamped range, imageToView and viewToImage
are mutual inverses — exactly so over the rationals, hence in particular
within floating-point tolerance. -/
theorem coordinate_roundTrip (st : EngineState) (t : Transforms) (p : Vec2)
    (ht : getTransforms st = some t) (h1 : 1/10 ≤ st.zoom) (h2 : st.zoom ≤ 8) :
    viewToImage t (imageToView t p) = p ∧ imageToView t (viewToImage t p) = p := by
  have hz : t.zoom = st.zoom := by
    unfold getTransforms at ht
    split at ht
    · cases ht
    · injection ht with h
      rw [← h]
  have hz0 : t.zoom ≠ 0 := by
    rw [hz]
    intro h0
    rw [h0] at h1
    norm_num at h1
  cases p with
  | mk px py =>
    unfold imageToView viewToImage
    refine ⟨?_, ?_⟩ <;> simp only [Vec2.mk.injEq] <;> constructor <;> field_simp

/-- The getTransforms snapshot of stdState. -/
def stdTransforms : Transforms :=
  { vw := 800, vh := 600, iw := 200, ih := 100, zoom := 1, originX := 300, originY := 250 }

/-- Witness for C3 at the concrete snapshot of stdState and the point (3, 4). -/
theorem coordinate_roundTrip_witness :
    viewToImage stdTransforms (imageToView stdTransforms ⟨3, 4⟩) = ⟨3, 4⟩ ∧
    imageToView stdTransforms (viewToImage stdTransforms ⟨3, 4⟩) = ⟨3, 4⟩ :=
  coordinate_roundTrip stdState stdTransforms ⟨3, 4⟩
    (by norm_num [getTransforms, stdState, oneLayerState, stdTransforms])
    (by norm_num [stdState, oneLayerState]) (by norm_num [stdState, oneLayerState])

/-- C7: applyCrop with zero layers, with a target id matching no layer, or
with the offscreen drawing-surface context unavailable is a no-op that
returns the state unchanged — no layer field, no bitmap, and no document
state is modified (and, being a total function, it never throws). -/
theorem applyCrop_earlyReturn (ctxOk : Bool) (rect : CropRect) (tid : Option String)
    (st : EngineState) :
    (st.layers = [] → applyCrop ctxOk rect tid st = st) ∧
    (∀ t, tid = some t → (∀ l ∈ st.layers, l.id ≠ t) → applyCrop ctxOk rect tid st = st) ∧
    (ctxOk = false → applyCrop ctxOk rect tid st = st) := by
  refine ⟨?_, ?_, ?_⟩
  · intro h
    unfold applyCrop
    simp [h]
  · intro t htid hnone
    subst htid
    unfold applyCrop
    have hidx : st.layers.findIdx (fun l => l.id == t) = st.layers.length :=
      List.findIdx_eq_length.mpr (by simpa using hnone)
    have hget : st.layers[cropTargetIdx (some t) st]? = none := by
      have hi : cropTargetIdx (some t) st = st.layers.length := by
        simp [cropTargetIdx, hidx]
      rw [hi]
      exact List.getElem?_eq_none le_rfl
    split
    · rfl
    · rw [hget]
  · intro hc
    subst hc
    unfold applyCrop
    split
    · rfl
    · split
      · rfl
      · split
        · rfl
        · simp

/-- Witness for C7: the three early-return shapes at concrete inputs — the
empty initial document, a missing layer id on stdState, and an unavailable
context on stdState. -/
theorem applyCrop_earlyReturn_witness :
    applyCrop true ⟨0, 0, 10, 10, 0⟩ none initialState = initialState ∧
    applyCrop true ⟨0, 0, 10, 10, 0⟩ (some "missing") stdState = stdState ∧
    applyCrop false ⟨0, 0, 10, 10, 0⟩ none stdState = stdState :=
  ⟨(applyCrop_earlyReturn true ⟨0, 0, 10, 10, 0⟩ none initialState).1 rfl,
   (applyCrop_earlyReturn true ⟨0, 0, 10, 10, 0⟩ (some "missing") stdState).2.1 "missing" rfl
     (by intro l hl; simp [stdState, oneLayerState, baseLayer] at hl; simp [hl]),
   (applyCrop_earlyReturn false ⟨0, 0, 10, 10, 0⟩ none stdState).2.2 rfl⟩

/-- C4 counterexample: renameLayer is a mutating layer operation other than
setLayerLocked and setLayerVisibility, yet invoking it on a locked layer
changes the layer's name field — the source renameLayer has no locked
check. -/
theorem locked_rename_counterexample :
    lockedState.layers.map Layer.locked = [true] ∧
    lockedState.layers.map Layer.name = ["layer"] ∧
    (renameLayer "L1" "renamed" lockedState).layers.map Layer.name = ["renamed"] :=
  ⟨rfl, rfl, rfl⟩

/-- C4 (amended): for a locked target layer, every mutating layer operation
except setLayerLocked, setLayerVisibility and renameLayer — setLayerOffset,
moveLayerOffset, setLayerScale, setLayerRotation, setLayerOpacity,
setLayerBlendMode, deleteLayer, duplicateLayer, moveLayer, and applyCrop
targeting that layer — returns the whole state unchanged, so every field of
the layer is unchanged and the layer stays at its position; renameLayer,
by contrast, does rename locked layers. -/
theorem locked_layer_mutators_noop (st : EngineState) (id : String) (l : Layer)
    (hfind : findLayer st id = some l) (hlock : l.locked = true) :
    (∀ off, setLayerOffset id off st = st) ∧
    (∀ dx dy, moveLayerOffset id dx dy st = st) ∧
    (∀ sc, setLayerScale id sc st = st) ∧
    (∀ r, setLayerRotation id r st = st) ∧
    (∀ o, setLayerOpacity id o st = st) ∧
    (∀ bm, setLayerBlendMode id bm st = st) ∧
    deleteLayer id st = st ∧
    (∀ newId, duplicateLayer newId id st = st) ∧
    (∀ dir, moveLayer id dir st = st) ∧
    (∀ ctxOk rect, applyCrop ctxOk rect (some id) st = st) := by
  refine ⟨fun off => ?_, fun dx dy => ?_, fun sc => ?_, fun r => ?_, fun o => ?_,
    fun bm => ?_, ?_, fun newId => ?_, fun dir => ?_, fun ctxOk rect => ?_⟩
  · unfold setLayerOffset
    rw [hfind]
    simp [hlock]
  · unfold moveLayerOffset
    rw [hfind]
    simp [hlock]
  · unfold setLayerScale
    rw [hfind]
    simp [hlock]
  · unfold setLayerRotation
    rw [hfind]
    simp [hlock]
  · unfold setLayerOpacity
    rw [hfind]
    simp [hlock]
  · unfold setLayerBlendMode
    rw [hfind]
    simp [hlock]
  · unfold deleteLayer
    rw [hfind]
    simp [hlock]
  · unfold duplicateLayer
    rw [hfind]
    simp [hlock]
  · unfold moveLayer
    rw [hfind]
    simp [hlock]
  · have hget : st.layers[cropTargetIdx (some id) st]? = some l := by
      have hi : cropTargetIdx (some id) st = findLayerIdx st id := by
        simp [cropTargetIdx, findLayerIdx]
      rw [hi]
      exact hfind
    unfold applyCrop
    split
    · rfl
    · rw [hget]
      simp [hlock]

/-- Witness for C4 (amended) on the concrete locked single-layer document:
every listed mutator at concrete arguments leaves the state untouched. -/
theorem locked_layer_mutators_noop_witness :
    setLayerOffset "L1" ⟨7, 9⟩ lockedState = lockedState ∧
    moveLayerOffset "L1" 1 2 lockedState = lockedState ∧
    setLayerScale "L1" 3 lockedState = lockedState ∧
    setLayerRotation "L1" 45 lockedState = lockedState ∧
    setLayerOpacity "L1" (1/2) lockedState = lockedState ∧
    setLayerBlendMode "L1" "multiply" lockedState = lockedState ∧
    deleteLayer "L1" lockedState = lockedState ∧
    duplicateLayer "L2" "L1" lockedState = lockedState ∧
    moveLayer "L1" MoveDir.up lockedState = lockedState ∧
    applyCrop true ⟨0, 0, 10, 10, 0⟩ (some "L1") lockedState = lockedState := by
  have h := locked_layer_mutators_noop lockedState "L1" lockedLayer rfl rfl
  exact ⟨h.1 ⟨7, 9⟩, h.2.1 1 2, h.2.2.1 3, h.2.2.2.1 45, h.2.2.2.2.1 (1/2),
    h.2.2.2.2.2.1 "multiply", h.2.2.2.2.2.2.1, h.2.2.2.2.2.2.2.1 "L2",
    h.2.2.2.2.2.2.2.2.1 MoveDir.up, h.2.2.2.2.2.2.2.2.2 true ⟨0, 0, 10, 10, 0⟩⟩

/-- The JS remainder a % 360 is congruent to a modulo 360, lies strictly
between -360 and 360, and is nonnegative exactly when a is nonnegative (it
takes the sign of the dividend). -/
theorem jsMod_360_spec (a : ℚ) :
    (∃ k : ℤ, jsMod a 360 = a - 360 * k) ∧ -360 < jsMod a 360 ∧ jsMod a 360 < 360 ∧
      (0 ≤ a → 0 ≤ jsMod a 360) := by
  unfold jsMod ratTrunc
  have h360 : (360:ℚ) * (a / 360) = a := by field_simp
  rcases le_or_lt 0 (a / 360) with h | h
  · rw [if_pos h]
    have hf1 : (0:ℚ) ≤ a / 360 - ⌊a / 360⌋ := by
      have := Int.floor_le (a / 360)
      linarith
    have hf2 : a / 360 - ⌊a / 360⌋ < 1 := by
      have := Int.lt_floor_add_one (a / 360)
      linarith
    have key : a - 360 * (⌊a / 360⌋ : ℚ) = 360 * (a / 360 - ⌊a / 360⌋) := by
      rw [mul_sub, h360]
    refine ⟨⟨⌊a / 360⌋, rfl⟩, ?_, ?_, fun _ => ?_⟩
    · nlinarith
    · nlinarith
    · nlinarith
  · rw [if_neg (not_le.mpr h)]
    have hc1 : a / 360 ≤ (⌈a / 360⌉ : ℚ) := Int.le_ceil _
    have hc2 : (⌈a / 360⌉ : ℚ) < a / 360 + 1 := Int.ceil_lt_add_one _
    have key : a - 360 * (⌈a / 360⌉ : ℚ) = 360 * (a / 360 - ⌈a / 360⌉) := by
      rw [mul_sub, h360]
    have hneg : ¬ (0 ≤ a) := by
      intro h0
      exact absurd (div_nonneg h0 (by norm_num)) (not_le.mpr h)
    refine ⟨⟨⌈a / 360⌉, rfl⟩, ?_, ?_, fun h0 => absurd h0 hneg⟩
    · nlinarith
    · nlinarith

/-- C9 counterexample: the single layer of stdState is unlocked, yet
setLayerRotation with -90 stores -90, which does not lie in the canonical
range [0, 360) — the JS remainder keeps the dividend's sign. -/
theorem rotation_normalization_counterexample :
    stdState.layers.map Layer.locked = [false] ∧
    (setLayerRotation "L1" (-90) stdState).layers.map Layer.rotation = [-90] ∧
    ¬ (0 ≤ (-90 : ℚ) ∧ (-90 : ℚ) < 360) := by
  have hj : jsMod (-90) 360 = -90 := by
    unfold jsMod ratTrunc
    norm_num
  have hstep : setLayerRotation "L1" (-90) stdState =
      { stdState with layers := [{ baseLayer testPix with rotation := jsMod (-90) 360 }] } := rfl
  refine ⟨rfl, ?_, by norm_num⟩
  rw [hstep]
  simp [baseLayer, hj]

/-- C9 (amended): for an unlocked existing layer, setLayerRotation stores
the JS remainder r % 360: a value congruent to r modulo 360 and lying in
the open interval (-360, 360); it lies in [0, 360) for nonnegative r, but
keeps the sign of a negative r instead of landing in the canonical range. -/
theorem rotation_normalization_amended (st : EngineState) (id : String) (l : Layer) (r : ℚ)
    (hfind : findLayer st id = some l) (hlock : l.locked = false) :
    (setLayerRotation id r st).layers[findLayerIdx st id]? =
      some { l with rotation := jsMod r 360 } ∧
    (∃ k : ℤ, jsMod r 360 = r - 360 * k) ∧
    -360 < jsMod r 360 ∧ jsMod r 360 < 360 ∧ (0 ≤ r → 0 ≤ jsMod r 360) := by
  have hlen : findLayerIdx st id < st.layers.length := by
    by_contra hn
    push_neg at hn
    rw [findLayer, List.getElem?_eq_none hn] at hfind
    cases hfind
  refine ⟨?_, (jsMod_360_spec r).1, (jsMod_360_spec r).2.1, (jsMod_360_spec r).2.2.1,
    (jsMod_360_spec r).2.2.2⟩
  unfold setLayerRotation
  rw [hfind]
  simp [hlock, List.getElem?_set_self, hlen]

/-- Witness for C9 (amended) at the concrete unlocked layer of stdState and
the rotation -90. -/
theorem rotation_normalization_amended_witness :
    ((setLayerRotation "L1" (-90) stdState).layers[findLayerIdx stdState "L1"]? =
      some { baseLayer testPix with rotation := jsMod (-90) 360 }) ∧
    (∃ k : ℤ, jsMod (-90) 360 = -90 - 360 * k) ∧
    -360 < jsMod (-90) 360 ∧ jsMod (-90) 360 < 360 ∧ ((0:ℚ) ≤ -90 → 0 ≤ jsMod (-90) 360) :=
  rotation_normalization_amended stdState "L1" (baseLayer testPix) (-90) rfl rfl

/-- C8 (amended): zoomTo, zoomBy and setView clamp, so the resulting zoom
always lies in [0.1, 8]; pan never changes the zoom; applyCrop either
returns the state unchanged or resets the zoom to 1.  fitToView, however,
stores the unclamped fit scale and can leave the range — see the
counterexample. -/
theorem zoom_clamped_amended :
    (∀ z p st, 1/10 ≤ (zoomTo z p st).zoom ∧ (zoomTo z p st).zoom ≤ 8) ∧
    (∀ d p st, 1/10 ≤ (zoomBy d p st).zoom ∧ (zoomBy d p st).zoom ≤ 8) ∧
    (∀ v st, 1/10 ≤ (setView v st).zoom ∧ (setView v st).zoom ≤ 8) ∧
    (∀ dx dy st, (pan dx dy st).zoom = st.zoom) ∧
    (∀ ctxOk rect tid st,
      applyCrop ctxOk rect tid st = st ∨ (applyCrop ctxOk rect tid st).zoom = 1) := by
  have hz : ∀ z p st, (zoomTo z p st).zoom = clamp z (1/10) 8 := fun z p st => rfl
  refine ⟨fun z p st => ?_, fun d p st => ?_, fun v st => ?_, fun dx dy st => rfl,
    fun ctxOk rect tid st => ?_⟩
  · rw [hz]
    exact clamp_mem z (1/10) 8 (by norm_num)
  · unfold zoomBy
    rw [hz]
    exact clamp_mem _ (1/10) 8 (by norm_num)
  · exact clamp_mem v.zoom (1/10) 8 (by norm_num)
  · unfold applyCrop
    split
    · exact Or.inl rfl
    · split
      · exact Or.inl rfl
      · split
        · exact Or.inl rfl
        · split
          · exact Or.inl rfl
          · exact Or.inr rfl

/-- A blank 10-by-10 bitmap. -/
def bmp10 : Bitmap := ⟨10, 10, fun _ _ => 0⟩

/-- C8 counterexample: starting from the initial document, resize the
viewport to 1000×1000, add a 10×10 image and call fitToView — a reachable
state transition after which the zoom is 90, outside [0.1, 8] (fitToView
stores min(vw/iw, vh/ih)·0.9 without clamping). -/
theorem zoom_clamped_counterexample :
    (fitToView (addImage "a" "img" bmp10 none (setSize 1000 1000 initialState))).zoom = 90 ∧
    ¬ (1/10 ≤ (90:ℚ) ∧ (90:ℚ) ≤ 8) := by
  constructor
  · norm_num [fitToView, addImage, setSize, initialState, computeImgSize, ceilSqrt, bmp10,
      min_def, max_def]
  · norm_num

/-- Helper: the floor of an integer plus one half is that integer. -/
theorem floor_add_half (n : ℤ) (q : ℚ) (h : q = (n : ℚ) + 1/2) : ⌊q⌋ = n := by
  subst h
  rw [Int.floor_eq_iff]
  constructor <;> norm_num

/-- C10 counterexample: on a document whose single (hence last/topmost)
layer is locked, applyCrop with the target id omitted does not crop it —
the bitmap keeps its 200×100 size instead of becoming the 100×50 crop. -/
theorem crop_topmost_counterexample :
    lockedState.layers.map Layer.locked = [true] ∧
    (applyCrop true ⟨50, 25, 100, 50, 0⟩ none lockedState).layers.map
      (fun l => (l.bitmap.width, l.bitmap.height)) = [(200, 100)] ∧
    ((200, 100) : ℕ × ℕ) ≠ (100, 50) := ⟨rfl, rfl, by decide⟩

/-- C10 (amended): with at least one layer, provided the last (topmost)
layer is unlocked and the drawing context is available, applyCrop with the
target id omitted crops exactly the last layer — its bitmap becomes the
crop result and its transform resets — while the layer count and every
other layer are unchanged.  A locked topmost layer makes the call a no-op
(see the counterexample). -/
theorem crop_topmost_amended (st : EngineState) (rect : CropRect) (last : Layer)
    (hlast : st.layers.getLast? = some last) (hlock : last.locked = false) :
    (applyCrop true rect none st).layers.length = st.layers.length ∧
    (applyCrop true rect none st).layers.getLast? =
      some { last with bitmap := cropBitmap last rect, offset := ⟨0, 0⟩
                       scale := 1, rotation := 0 } ∧
    (∀ k, k + 1 < st.layers.length →
      (applyCrop true rect none st).layers[k]? = st.layers[k]?) := by
  have hne : st.layers ≠ [] := by
    intro h
    rw [h] at hlast
    cases hlast
  have hlen0 : 0 < st.layers.length := List.length_pos.mpr hne
  have hidx : cropTargetIdx none st = st.layers.length - 1 := rfl
  have hget : st.layers[cropTargetIdx none st]? = some last := by
    rw [hidx, ← List.getLast?_eq_getElem?]
    exact hlast
  have hstep : applyCrop true rect none st =
      { st with
          layers := st.layers.set (cropTargetIdx none st)
            { last with bitmap := cropBitmap last rect, offset := ⟨0, 0⟩
                        scale := 1, rotation := 0 }
          imgSize := computeImgSize (st.layers.set (cropTargetIdx none st)
            { last with bitmap := cropBitmap last rect, offset := ⟨0, 0⟩
                        scale := 1, rotation := 0 })
          offset := ⟨0, 0⟩, zoom := 1 } := by
    unfold applyCrop
    rw [if_neg (by simp [List.isEmpty_iff, hne]), hget]
    simp [hlock]
  have hidx_lt : cropTargetIdx none st < st.layers.length := by
    rw [hidx]
    omega
  refine ⟨?_, ?_, ?_⟩
  · rw [hstep]
    simp
  · rw [hstep]
    simp only [List.getLast?_eq_getElem?, List.length_set]
    rw [← hidx]
    simp [List.getElem?_set_self, hidx_lt]
  · intro k hk
    rw [hstep]
    have hkne : cropTargetIdx none st ≠ k := by
      rw [hidx]
      omega
    simp [List.getElem?_set_ne, hkne]

/-- A second, unlocked 60×40 layer stacked on top of the base layer. -/
def topLayer : Layer :=
  { id := "L2", name := "top", bitmap := ⟨60, 40, testPix⟩, offset := ⟨0, 0⟩
    visible := true, scale := 1, rotation := 0, opacity := 1
    blendMode := "source-over", locked := false }

/-- stdState with topLayer stacked above the base layer. -/
def twoLayerState : EngineState := { stdState with layers := [baseLayer testPix, topLayer] }

/-- Witness for C10 (amended) on the concrete two-layer document: the crop
with omitted target hits topLayer, the layer count stays 2, and the bottom
layer is untouched. -/
theorem crop_topmost_amended_witness :
    (applyCrop true ⟨10, 5, 20, 10, 0⟩ none twoLayerState).layers.length =
      twoLayerState.layers.length ∧
    (applyCrop true ⟨10, 5, 20, 10, 0⟩ none twoLayerState).layers.getLast? =
      some { topLayer with bitmap := cropBitmap topLayer ⟨10, 5, 20, 10, 0⟩, offset := ⟨0, 0⟩
                           scale := 1, rotation := 0 } ∧
    (applyCrop true ⟨10, 5, 20, 10, 0⟩ none twoLayerState).layers[0]? =
      twoLayerState.layers[0]? := by
  have h := crop_topmost_amended twoLayerState ⟨10, 5, 20, 10, 0⟩ topLayer rfl rfl
  exact ⟨h.1, h.2.1, h.2.2 0 (by norm_num [twoLayerState])⟩

/-- C1: on a document with exactly one 200×100 layer at offset (0,0),
scale 1, rotation 0 and zoom 1, applyCrop with rect {x:50, y:25, w:100,
h:50, rotation:0} produces a new 100×50 layer bitmap whose content is the
source pixels of [50,150)×[25,75), and afterwards the layer's offset is
(0,0), its scale is 1 and its rotation is 0. -/
theorem crop_endToEnd (pix : ℤ → ℤ → ℕ) :
    ∃ l : Layer,
      (applyCrop true ⟨50, 25, 100, 50, 0⟩ none (oneLayerState pix)).layers = [l] ∧
      l.bitmap.width = 100 ∧ l.bitmap.height = 50 ∧
      l.offset = ⟨0, 0⟩ ∧ l.scale = 1 ∧ l.rotation = 0 ∧
      (∀ i j : ℤ, 0 ≤ i → i < 100 → 0 ≤ j → j < 50 →
        l.bitmap.pix i j = pix (50 + i) (25 + j)) := by
  refine ⟨{ baseLayer pix with
      bitmap := cropBitmap (baseLayer pix) ⟨50, 25, 100, 50, 0⟩
      offset := ⟨0, 0⟩
      scale := 1
      rotation := 0 }, rfl, ?_, ?_, rfl, rfl, rfl, ?_⟩
  · show ((max 1 ⌊(100:ℚ)⌋).toNat) = 100
    norm_num
    rfl
  · show ((max 1 ⌊(50:ℚ)⌋).toNat) = 50
    norm_num
    rfl
  · intro i j hi0 hi hj0 hj
    show (cropBitmap (baseLayer pix) ⟨50, 25, 100, 50, 0⟩).pix i j = pix (50 + i) (25 + j)
    unfold cropBitmap baseLayer
    norm_num
    unfold sampleAxisAligned
    rw [show Int.toNat 100 = 100 from rfl, show Int.toNat 50 = 50 from rfl]
    show pix ⌊(50:ℚ) + ((i:ℚ) + 1 / 2) * 100 / ((100:ℕ):ℚ)⌋
        ⌊(25:ℚ) + ((j:ℚ) + 1 / 2) * 50 / ((50:ℕ):ℚ)⌋ = pix (50 + i) (25 + j)
    rw [show ⌊(50:ℚ) + ((i:ℚ) + 1 / 2) * 100 / ((100:ℕ):ℚ)⌋ = 50 + i from
        floor_add_half _ _ (by push_cast; ring),
      show ⌊(25:ℚ) + ((j:ℚ) + 1 / 2) * 50 / ((50:ℕ):ℚ)⌋ = 25 + j from
        floor_add_half _ _ (by push_cast; ring)]

/-- Witness for C1 at the concrete test pixels: the cropped layer measures
100×50 and its pixel (0,0) equals the source pixel (50,25). -/
theorem crop_endToEnd_witness :
    ((applyCrop true ⟨50, 25, 100, 50, 0⟩ none (oneLayerState testPix)).layers.map
      (fun l => (l.bitmap.width, l.bitmap.height))) = [(100, 50)] ∧
    ((applyCrop true ⟨50, 25, 100, 50, 0⟩ none (oneLayerState testPix)).layers.map
      (fun l => l.bitmap.pix 0 0)) = [testPix 50 25] := by
  obtain ⟨l, h1, h2, h3, _, _, _, h7⟩ := crop_endToEnd testPix
  rw [h1]
  have := h7 0 0 le_rfl (by norm_num) le_rfl (by norm_num)
  simp only [List.map_cons, List.map_nil, h2, h3, this]
  norm_num

/-- The filter state with warm temperature 50, all other fields neutral. -/
def warmFilter : FilterState := { neutralFilter with temperature := 50 }

/-- C5 counterexample: at temperature 50 (everything else neutral) the live
renderer's chain is the temperature triad, but the export filter chain is
empty — the export does not apply the same filter chain as the live
renderer, so the exported pixels cannot match the live canvas for every
filter state. -/
theorem export_matches_live_counterexample :
    buildFilterChain warmFilter =
      [FilterOp.sepia 30, FilterOp.saturate 115, FilterOp.hueRotate (-20)] ∧
    exportFilterChain warmFilter = [] ∧
    ([FilterOp.sepia 30, FilterOp.saturate 115, FilterOp.hueRotate (-20)] : List FilterOp)
      ≠ [] := by
  refine ⟨?_, ?_, by decide⟩
  · norm_num [buildFilterChain, warmFilter, neutralFilter, temperatureTriad,
      effectiveBrightness, effectiveContrast, effectiveSaturation, temperatureT,
      temperatureSepia, temperatureSaturate, temperatureHue, min_def, max_def, abs]
  · norm_num [exportFilterChain, warmFilter, neutralFilter]

/-- C5 (amended): the export filter chain agrees with the live renderer's
chain exactly when the extended adjustments (highlights, shadows,
temperature, exposure, clarity, fade) are neutral — it drops them
otherwise — and the export canvas is not the exact union bounding box of
the visible layers but that box enlarged by a 10-pixel padding on each
side: for a single visible unrotated unscaled layer the canvas measures
bitmap width + 20 by bitmap height + 20, with the draw origin shifted by
(-10, -10) from the box corner.  Per-layer opacity and blend mode are not
applied by the export at all. -/
theorem export_matches_live_amended :
    (∀ f : FilterState, f.highlights = 100 → f.shadows = 100 → f.temperature = 0 →
      f.exposure = 0 → f.clarity = 0 → f.fade = 0 →
      exportFilterChain f = buildFilterChain f) ∧
    (∀ (st : EngineState) (l : Layer), st.layers = [l] → l.visible = true →
      l.rotation = 0 → l.scale = 1 →
      exportSetup true st = Except.ok
        { canvasW := (l.bitmap.width : ℤ) + 20, canvasH := (l.bitmap.height : ℤ) + 20
          offsetX := l.offset.x - 10, offsetY := l.offset.y - 10
          chain := exportFilterChain st.filter }) := by
  constructor
  · intro f h1 h2 h3 h4 h5 h6
    obtain ⟨b, c, s, hu, bl, sh, hi, sa, t, e, cl, fa⟩ := f
    simp only at h1 h2 h3 h4 h5 h6
    subst h1 h2 h3 h4 h5 h6
    unfold exportFilterChain buildFilterChain temperatureTriad effectiveBrightness
      effectiveContrast effectiveSaturation
    norm_num [min_def, max_def]
  · intro st l hl hv hr hs
    obtain ⟨id, name, ⟨w, h, px⟩, ⟨ox, oy⟩, visible, scale, rotation, opacity, bm, lk⟩ := l
    simp only at hv hr hs
    subst hv hr hs
    have hw0 : (0:ℚ) ≤ (w : ℚ) / 2 := by positivity
    have hh0 : (0:ℚ) ≤ (h : ℚ) / 2 := by positivity
    unfold exportSetup exportCornersZeroRot
    rw [hl]
    simp only [List.isEmpty_cons, List.all_cons, List.all_nil, Bool.not_true,
      Bool.false_or, List.filter_cons, List.filter_nil, List.flatMap_cons, List.flatMap_nil,
      List.map_cons, List.map_nil, List.append_nil, List.foldl_cons, List.foldl_nil]
    norm_num
    simp only [min_def, max_def]
    split_ifs <;>
      refine ⟨?_, ?_, ?_, ?_⟩ <;>
      first
        | (push_cast; linarith)
        | (rw [Int.ceil_eq_iff]; constructor <;> push_cast <;> linarith)

/-- The filter state with brightness 120 and every extended adjustment
neutral. -/
def brightFilter : FilterState := { neutralFilter with brightness := 120 }

/-- Witness for C5 (amended): chain agreement at the concrete brightness-120
filter state, and the export set-up of the concrete single-layer document
stdState (one 200×100 layer at the origin): a 220×120 canvas with the draw
origin shifted by (-10, -10). -/
theorem export_matches_live_amended_witness :
    exportFilterChain brightFilter = buildFilterChain brightFilter ∧
    exportSetup true stdState = Except.ok
      { canvasW := ((200:ℕ) : ℤ) + 20, canvasH := ((100:ℕ) : ℤ) + 20
        offsetX := 0 - 10, offsetY := 0 - 10
        chain := exportFilterChain stdState.filter } :=
  ⟨export_matches_live_amended.1 brightFilter rfl rfl rfl rfl rfl rfl,
   export_matches_live_amended.2 stdState (baseLayer testPix) rfl rfl rfl rfl⟩

end ImageEditor
